import Mathlib

/-!
Shallow embedding of the pghero-controller database controller
(`controllers/database_controller.go`) and proofs about its reconciliation
logic: URL resolution, username extraction, extension setup with the
superuser fallback, the aggregated ConfigMap upsert/rebuild, status
condition updates and the deletion path.

Kubernetes client interactions are modelled by an explicit cluster state
(`ClusterState`) holding the Database resources, Secrets and ConfigMaps of
the cluster, and by small oracles for the outcomes of control-plane writes
and of database-driver calls.
-/

set_option maxRecDepth 10000

namespace PgHero

/-- SecretReference from api/v1alpha1: (name, key, optional namespace).
The Go field `Namespace` is spelt `nspace` here because `namespace` is a
Lean keyword. -/
structure SecretReference where
  name : String
  key : String
  nspace : String
deriving Repr, DecidableEq

/-- DatabaseSpec from api/v1alpha1. -/
structure DatabaseSpec where
  name : String
  url : String
  urlFromSecret : Option SecretReference
  superuserURL : String
  superuserURLFromSecret : Option SecretReference
  databaseType : String
  enabled : Bool
deriving Repr, DecidableEq

/-- One metav1.Condition as used by the controller: type, boolean status
(ConditionTrue / ConditionFalse), reason and message. -/
structure Condition where
  condType : String
  status : Bool
  reason : String
  message : String
deriving Repr, DecidableEq

/-- DatabaseStatus from api/v1alpha1. -/
structure DatabaseStatus where
  phase : String
  message : String
  configMapRef : String
  connectionStatus : String
  extensionsReady : Bool
  requiredExtensions : List String
  installedExtensions : List String
  lastError : String
  conditions : List Condition
deriving Repr, DecidableEq

/-- A Database custom resource: object metadata (name, namespace,
finalizers, deletion timestamp) plus spec and status. -/
structure Database where
  name : String
  nspace : String
  deletionTimestampSet : Bool
  finalizers : List String
  spec : DatabaseSpec
  status : DatabaseStatus
deriving Repr, DecidableEq

/-- A Secret: identity plus key/value data. -/
structure Secret where
  name : String
  nspace : String
  data : List (String × String)
deriving Repr, DecidableEq

/-- A ConfigMap: identity, labels, annotations and data. -/
structure ConfigMap where
  name : String
  nspace : String
  labels : List (String × String)
  annotations : List (String × String)
  data : List (String × String)
deriving Repr, DecidableEq

/-- The cluster contents visible to the controller through its client. -/
structure ClusterState where
  databases : List Database
  secrets : List Secret
  configMaps : List ConfigMap
deriving Repr, DecidableEq

/-- Look up a value in an association list (Go map read `m[k]`). -/
def getKey (m : List (String × String)) (k : String) : Option String :=
  (m.find? (fun kv => kv.1 == k)).map (fun kv => kv.2)

/-- Set a key in an association list (Go map write `m[k] = v`; Go maps are
unordered, so any lookup-equivalent representation is faithful). -/
def setKey (m : List (String × String)) (k v : String) : List (String × String) :=
  (k, v) :: m.filter (fun kv => !(kv.1 == k))

/-- Client Get of a Secret by namespace and name. -/
def lookupSecret (st : ClusterState) (ns name : String) : Option Secret :=
  st.secrets.find? (fun s => s.nspace == ns && s.name == name)

/-- Client Get of a ConfigMap by namespace and name. -/
def findConfigMap (st : ClusterState) (ns name : String) : Option ConfigMap :=
  st.configMaps.find? (fun cm => cm.nspace == ns && cm.name == name)

/-- Store a ConfigMap, replacing any ConfigMap with the same identity. -/
def putConfigMap (st : ClusterState) (cm : ConfigMap) : ClusterState :=
  { st with configMaps :=
      cm :: st.configMaps.filter (fun c => !(c.nspace == cm.nspace && c.name == cm.name)) }

/-- Store a Database, replacing any Database with the same identity. -/
def putDatabase (st : ClusterState) (db : Database) : ClusterState :=
  { st with databases :=
      db :: st.databases.filter (fun d => !(d.nspace == db.nspace && d.name == db.name)) }

/-- All Database resources the client List returns for a namespace. -/
def namespaceDatabases (st : ClusterState) (ns : String) : List Database :=
  st.databases.filter (fun d => d.nspace == ns)

/-- The finalizer string `pghero.mithucste30.io/finalizer`. -/
def databaseFinalizer : String := "pghero.mithucste30.io/finalizer"

/-- The shared ConfigMap identity `pghero-databases`. -/
def configMapName : String := "pghero-databases"

/-- getDatabaseURL: if urlFromSecret is set, read the secret (defaulting its
namespace to the resource's namespace) and return the value at the key,
failing when the secret or the key is absent; otherwise return spec.url. -/
def getDatabaseURL (st : ClusterState) (database : Database) : Except String String :=
  match database.spec.urlFromSecret with
  | some secretRef =>
      let ns := if secretRef.nspace == "" then database.nspace else secretRef.nspace
      match lookupSecret st ns secretRef.name with
      | none =>
          .error ("failed to get secret " ++ ns ++ "/" ++ secretRef.name)
      | some secret =>
          match getKey secret.data secretRef.key with
          | none =>
              .error ("key " ++ secretRef.key ++ " not found in secret " ++ ns ++ "/" ++ secretRef.name)
          | some url => .ok url
  | none => .ok database.spec.url

/-- getSuperuserURL: like getDatabaseURL but over the superuser fields, and
returning the empty string (not an error) when neither a literal superuser
URL nor a superuser secret reference is configured. -/
def getSuperuserURL (st : ClusterState) (database : Database) : Except String String :=
  match database.spec.superuserURLFromSecret with
  | some secretRef =>
      let ns := if secretRef.nspace == "" then database.nspace else secretRef.nspace
      match lookupSecret st ns secretRef.name with
      | none =>
          .error ("failed to get superuser secret " ++ ns ++ "/" ++ secretRef.name)
      | some secret =>
          match getKey secret.data secretRef.key with
          | none =>
              .error ("key " ++ secretRef.key ++ " not found in superuser secret " ++ ns ++ "/" ++ secretRef.name)
          | some url => .ok url
  | none =>
      if database.spec.superuserURL != "" then .ok database.spec.superuserURL
      else .ok ""

/-- Check whether `p` is a prefix of `s` (character lists). -/
def hasPref : List Char → List Char → Bool
  | [], _ => true
  | _ :: _, [] => false
  | a :: as, b :: bs => a == b && hasPref as bs

/-- Go strings.HasPrefix on strings, via character lists. -/
def strHasPref (s p : String) : Bool :=
  hasPref p.toList s.toList

/-- Go strings.TrimPrefix: drop `p` from the front of `s` when it is a
prefix, otherwise return `s` unchanged. -/
def trimPref (s p : String) : String :=
  if strHasPref s p then (s.toList.drop p.toList.length).asString else s

/-- Go strings.Contains: does `pat` occur as a substring of `s`? -/
def containsSubstr (s pat : String) : Bool :=
  let cs := s.toList
  let p := pat.toList
  (List.range (cs.length + 1)).any (fun i => hasPref p (cs.drop i))

/-- Go strings.Index on a character, as an integer: the index of the first
occurrence of `c` in `l`, or -1 when absent. -/
def goIndexOf (l : List Char) (c : Char) : Int :=
  match l.findIdx? (fun x => x == c) with
  | some n => (n : Int)
  | none => -1

/-- extractUsernameFromURL, translated from the Go source: require a
`postgres://` or `postgresql://` scheme (else empty), strip the scheme,
then return the text before the first `:` when that index is strictly
positive, else the text before the first `@` when that index is strictly
positive, else empty. -/
def extractUsernameFromURL (dbURL : String) : String :=
  if !(strHasPref dbURL ("postgres://")) && !(strHasPref dbURL ("postgresql://")) then ""
  else
    let u1 := trimPref dbURL ("postgres://")
    let u2 := trimPref u1 ("postgresql://")
    let cs := u2.toList
    if goIndexOf cs ':' > 0 then
      (cs.take (goIndexOf cs ':').toNat).asString
    else if goIndexOf cs '@' > 0 then
      (cs.take (goIndexOf cs '@').toNat).asString
    else ""

/-- Spec-literal username extraction, following the claim's words: after
stripping the scheme, the substring up to the first `:` whenever a `:`
occurs, else the substring up to the first `@` whenever an `@` occurs, else
empty (and empty without a postgres scheme). -/
def specExtractUsername (dbURL : String) : String :=
  if !(strHasPref dbURL ("postgres://")) && !(strHasPref dbURL ("postgresql://")) then ""
  else
    let u1 := trimPref dbURL ("postgres://")
    let u2 := trimPref u1 ("postgresql://")
    let cs := u2.toList
    match cs.findIdx? (fun x => x == ':') with
    | some idx => (cs.take idx).asString
    | none =>
        match cs.findIdx? (fun x => x == '@') with
        | some j => (cs.take j).asString
        | none => ""

/-- Amended description of the code's extraction: identical to the
spec-literal reading except that a delimiter at index 0 is ignored — the
`:` branch applies only when the `:` has at least one character before it,
else the `@` branch applies only when the `@` has at least one character
before it. -/
def amendedExtractUsername (dbURL : String) : String :=
  if !(strHasPref dbURL ("postgres://")) && !(strHasPref dbURL ("postgresql://")) then ""
  else
    let u1 := trimPref dbURL ("postgres://")
    let u2 := trimPref u1 ("postgresql://")
    let cs := u2.toList
    match cs.findIdx? (fun x => x == ':') with
    | some idx =>
        if 0 < idx then (cs.take idx).asString
        else
          match cs.findIdx? (fun x => x == '@') with
          | some j => if 0 < j then (cs.take j).asString else ""
          | none => ""
    | none =>
        match cs.findIdx? (fun x => x == '@') with
        | some j => if 0 < j then (cs.take j).asString else ""
        | none => ""

/-- Oracles for the database driver's behaviour, keyed by connection URL:
whether sql.Open succeeds, whether Ping succeeds, the extension catalog
returned by the first `SELECT extname FROM pg_extension` (none = query
error), the driver response to `CREATE EXTENSION IF NOT EXISTS` (none =
success, some = error text), and the catalog returned by the verification
re-query. -/
structure DbWorld where
  openOk : String → Bool
  pingOk : String → Bool
  catalog : String → Option (List String)
  createExt : String → String → Option String
  catalogAfter : String → Option (List String)

/-- Outcome of createExtensionAsSuperuser: the returned bool plus the SQL
statements executed on the superuser connection, in order. -/
structure SuperResult where
  ok : Bool
  executed : List String
deriving Repr, DecidableEq

/-- createExtensionAsSuperuser: connect and ping with the superuser URL,
create the extension, then — when the username extracted from the
resource's literal spec.url is neither empty nor "postgres" — issue the two
GRANT statements (their own failures are ignored in Go and do not change
the result or the set of issued statements). -/
def createExtensionAsSuperuser (w : DbWorld) (superuserURL extName : String) (database : Database) : SuperResult :=
  if !(w.openOk superuserURL) then { ok := false, executed := [] }
  else if !(w.pingOk superuserURL) then { ok := false, executed := [] }
  else
    let createSQL := ("CREATE EXTENSION IF NOT EXISTS ") ++ extName
    match w.createExt superuserURL extName with
    | some _ => { ok := false, executed := [createSQL] }
    | none =>
        let username := extractUsernameFromURL database.spec.url
        if username != "" && username != "postgres" then
          { ok := true,
            executed := [createSQL,
                         ("GRANT pg_monitor TO ") ++ username,
                         ("GRANT EXECUTE ON FUNCTION pg_stat_statements_reset TO ") ++ username] }
        else { ok := true, executed := [createSQL] }

/-- The fixed required-extension set for PgHero. -/
def requiredExtensions : List String := ["pg_stat_statements"]

/-- Outcome of setupDatabaseExtensions: the (ready, err) pair, the status
fields as mutated by the function, and the SQL statements executed through
superuser connections. -/
structure SetupResult where
  ready : Bool
  err : Option String
  status : DatabaseStatus
  executed : List String
deriving Repr, DecidableEq

/-- The descriptive last-error recorded when a permission-class failure hits
and no superuser credentials are available. -/
def missingSuperuserMsg (ext : String) : String :=
  ("Permission denied to create extension ") ++ ext ++
    (". Database user needs superuser privileges or provide superuser credentials via superuserUrl or superuserUrlFromSecret.")

/-- The for-loop of setupDatabaseExtensions over the missing extensions:
attempt direct creation; on a permission-class error text, fall back to the
superuser path; a superuser-resolution error or empty superuser URL, or a
failed superuser creation, aborts with ready=false and nil error; any other
creation failure aborts with a hard error. -/
def installMissing (st : ClusterState) (w : DbWorld) (database : Database) (dbURL : String) :
    DatabaseStatus → List String → List String → Except SetupResult (DatabaseStatus × List String)
  | status, acc, [] => .ok (status, acc)
  | status, acc, ext :: rest =>
      match w.createExt dbURL ext with
      | none => installMissing st w database dbURL status acc rest
      | some errMsg =>
          if containsSubstr errMsg ("permission denied") || containsSubstr errMsg ("must be superuser") then
            match getSuperuserURL st database with
            | .error _ =>
                .error { ready := false, err := none,
                         status := { status with lastError := missingSuperuserMsg ext, extensionsReady := false },
                         executed := acc }
            | .ok superuserURL =>
                if superuserURL == "" then
                  .error { ready := false, err := none,
                           status := { status with lastError := missingSuperuserMsg ext, extensionsReady := false },
                           executed := acc }
                else
                  let res := createExtensionAsSuperuser w superuserURL ext database
                  if res.ok then
                    installMissing st w database dbURL status (acc ++ res.executed) rest
                  else
                    .error { ready := false, err := none,
                             status := { status with
                               lastError := ("Failed to create extension ") ++ ext ++ (" even with superuser credentials"),
                               extensionsReady := false },
                             executed := acc ++ res.executed }
          else
            .error { ready := false,
                     err := some (("failed to create extension ") ++ ext ++ (": ") ++ errMsg),
                     status := { status with lastError := ("Failed to create extension ") ++ ext ++ (": ") ++ errMsg },
                     executed := acc }

/-- setupDatabaseExtensions: connect and ping (hard errors), read the
extension catalog onto status, compute the missing set, return ready=true
when nothing is missing, otherwise run the installation loop and finally
re-query the catalog and set extensions-ready to whether all required
extensions are now present. -/
def setupDatabaseExtensions (st : ClusterState) (w : DbWorld) (database : Database) (dbURL : String) : SetupResult :=
  let status0 := database.status
  if !(w.openOk dbURL) then
    { ready := false, err := some ("failed to open database connection"),
      status := { status0 with connectionStatus := ("Failed"), lastError := ("Failed to connect") },
      executed := [] }
  else if !(w.pingOk dbURL) then
    { ready := false, err := some ("database unreachable"),
      status := { status0 with connectionStatus := ("Unreachable"), lastError := ("Database unreachable") },
      executed := [] }
  else
    let status1 := { status0 with connectionStatus := ("Connected"), requiredExtensions := requiredExtensions }
    match w.catalog dbURL with
    | none =>
        { ready := false, err := some ("failed to query extensions"),
          status := { status1 with lastError := ("Failed to query extensions") },
          executed := [] }
    | some installed =>
        let status2 := { status1 with installedExtensions := installed }
        let missing := requiredExtensions.filter (fun req => !(installed.contains req))
        if missing.isEmpty then
          { ready := true, err := none,
            status := { status2 with extensionsReady := true, lastError := "" },
            executed := [] }
        else
          match installMissing st w database dbURL status2 [] missing with
          | .error r => r
          | .ok (status3, acc) =>
              match w.catalogAfter dbURL with
              | none =>
                  { ready := false, err := some ("failed to verify extensions"),
                    status := status3, executed := acc }
              | some installed2 =>
                  let allInstalled := requiredExtensions.all (fun req => installed2.contains req)
                  let newErr := if allInstalled then "" else status3.lastError
                  let status4 := { status3 with installedExtensions := installed2, extensionsReady := allInstalled, lastError := newErr }
                  { ready := allInstalled, err := none, status := status4, executed := acc }

/-- Control-plane responses for the single Create or Update call a
ConfigMap write makes: none = accepted, some = rejected with that error
(for example an optimistic-concurrency conflict). -/
structure WriteOracle where
  createErr : Option String
  updateErr : Option String
deriving Repr, DecidableEq

deriving instance DecidableEq for Except

/-- Outcome of reconcileConfigMap: the Go (string, error) pair as an
Except, the resulting cluster state, and how many ConfigMap write calls
(Create or Update) were attempted. -/
structure UpsertOutcome where
  result : Except String String
  state : ClusterState
  writes : Nat
deriving Repr, DecidableEq

/-- The URL used for one database in the aggregation loop: the current
resource reuses the caller-resolved URL, every other resource is resolved
independently. -/
def resolvedURLFor (st : ClusterState) (database : Database) (dbURL : String) (db : Database) : Except String String :=
  if db.name == database.name then .ok dbURL else getDatabaseURL st db

/-- One database.yml entry as rendered by the Go Sprintf pair. -/
def entryFor (name url : String) : String :=
  ("  ") ++ name ++ (":\n") ++ ("    url: ") ++ url ++ ("\n")

/-- The body built by the aggregation loop of reconcileConfigMap: resolve
each database (skipping it on failure), then append its entry when it is
enabled. -/
def aggBody (st : ClusterState) (database : Database) (dbURL : String) : List Database → String
  | [] => ""
  | db :: rest =>
      match resolvedURLFor st database dbURL db with
      | .error _ => aggBody st database dbURL rest
      | .ok url =>
          (if db.spec.enabled then entryFor db.spec.name url else "") ++ aggBody st database dbURL rest

/-- The (friendly name, url) pairs included by the aggregation loop. -/
def includedEntries (st : ClusterState) (database : Database) (dbURL : String) (dbs : List Database) : List (String × String) :=
  dbs.filterMap (fun db =>
    match resolvedURLFor st database dbURL db with
    | .error _ => none
    | .ok url => if db.spec.enabled then some (db.spec.name, url) else none)

/-- Render a list of entries as the database.yml body. -/
def renderEntries : List (String × String) → String
  | [] => ""
  | e :: rest => entryFor e.1 e.2 ++ renderEntries rest

/-- The management labels written on the aggregated ConfigMap. -/
def managedLabels : List (String × String) :=
  [("app.kubernetes.io/name", "pghero"),
   ("app.kubernetes.io/component", "database-config"),
   ("app.kubernetes.io/managed-by", "pghero-controller")]

/-- The database-count annotation key. -/
def countAnnotKey : String := "pghero.mithucste30.io/database-count"

/-- reconcileConfigMap: list the namespace's databases, build the
aggregated body, then Create the ConfigMap when absent or overwrite
data, labels and annotations when present. The count annotation is the
length of the full database list. A write rejection is returned
immediately; there is no retry. -/
def reconcileConfigMap (st : ClusterState) (cp : WriteOracle) (database : Database) (dbURL : String) : UpsertOutcome :=
  let dbs := namespaceDatabases st database.nspace
  let aggregatedConfig := ("databases:\n") ++ aggBody st database dbURL dbs
  let newCM : ConfigMap :=
    { name := configMapName, nspace := database.nspace,
      labels := managedLabels,
      annotations := [(countAnnotKey, toString dbs.length)],
      data := [("database.yml", aggregatedConfig)] }
  match findConfigMap st database.nspace configMapName with
  | none =>
      match cp.createErr with
      | some e => { result := .error e, state := st, writes := 1 }
      | none => { result := .ok configMapName, state := putConfigMap st newCM, writes := 1 }
  | some found =>
      let updated := { found with data := newCM.data, labels := newCM.labels, annotations := newCM.annotations }
      match cp.updateErr with
      | some e => { result := .error e, state := st, writes := 1 }
      | none => { result := .ok configMapName, state := putConfigMap st updated, writes := 1 }

/-- Outcome of rebuildAggregatedConfigMap. -/
structure RebuildOutcome where
  err : Option String
  state : ClusterState
  writes : Nat
deriving Repr, DecidableEq

/-- The body-and-count loop of rebuildAggregatedConfigMap: skip the
excluded database, resolve each remaining one (skipping on failure), and
append the entry and bump the count when enabled. -/
def rebuildBody (st : ClusterState) (excludeDB : String) : List Database → String × Nat
  | [] => ("", 0)
  | db :: rest =>
      let tail := rebuildBody st excludeDB rest
      if db.name == excludeDB then tail
      else
        match getDatabaseURL st db with
        | .error _ => tail
        | .ok url =>
            if db.spec.enabled then (entryFor db.spec.name url ++ tail.1, tail.2 + 1) else tail

/-- The (friendly name, url) pairs included by the rebuild loop. -/
def rebuildEntries (st : ClusterState) (excludeDB : String) (dbs : List Database) : List (String × String) :=
  dbs.filterMap (fun db =>
    if db.name == excludeDB then none
    else
      match getDatabaseURL st db with
      | .error _ => none
      | .ok url => if db.spec.enabled then some (db.spec.name, url) else none)

/-- rebuildAggregatedConfigMap: recompute the body excluding one database;
when the ConfigMap does not exist this is a no-op success; otherwise set
the database.yml key and the count annotation (count = included entries)
and Update. -/
def rebuildAggregatedConfigMap (st : ClusterState) (cp : WriteOracle) (ns excludeDB : String) : RebuildOutcome :=
  let dbs := namespaceDatabases st ns
  let bc := rebuildBody st excludeDB dbs
  let aggregatedConfig := ("databases:\n") ++ bc.1
  match findConfigMap st ns configMapName with
  | none => { err := none, state := st, writes := 0 }
  | some cm =>
      let newData := setKey cm.data ("database.yml") aggregatedConfig
      let newAnnots := setKey cm.annotations countAnnotKey (toString bc.2)
      let cm2 := { cm with data := newData, annotations := newAnnots }
      match cp.updateErr with
      | some e => { err := some e, state := st, writes := 1 }
      | none => { err := none, state := putConfigMap st cm2, writes := 1 }

/-- The condition-upsert loop of updateStatus: overwrite the first
"Ready"-typed condition in place, appending when none exists. -/
def setReadyCondition : List Condition → Condition → List Condition
  | [], c => [c]
  | x :: xs, c => if x.condType == "Ready" then c :: xs else x :: setReadyCondition xs c

/-- updateStatus: write phase, message, artifact reference and
extensions-ready onto status and upsert the single "Ready" condition whose
status is ConditionTrue unless the phase is Error or Configuring. -/
def updateStatus (database : Database) (phase message configMapRef : String) (extensionsReady : Bool) : Database :=
  let condStatus := if phase == "Error" || phase == "Configuring" then false else true
  let condition : Condition :=
    { condType := "Ready", status := condStatus, reason := phase, message := message }
  { database with status :=
      { database.status with
          phase := phase, message := message, configMapRef := configMapRef,
          extensionsReady := extensionsReady,
          conditions := setReadyCondition database.status.conditions condition } }

/-- Outcome of handleDeletion: the returned error, the resulting cluster
state, and the counts of Database-resource and ConfigMap write attempts. -/
structure DeletionOutcome where
  err : Option String
  state : ClusterState
  dbWrites : Nat
  cmWrites : Nat
deriving Repr, DecidableEq

/-- handleDeletion: when the finalizer is present, rebuild the aggregated
ConfigMap best-effort (its error is logged and ignored), then remove the
finalizer and persist the resource (finalizerUpdateErr models that write's
outcome); when the finalizer is absent, do nothing and succeed. -/
def handleDeletion (st : ClusterState) (cp : WriteOracle) (finalizerUpdateErr : Option String) (database : Database) : DeletionOutcome :=
  if database.finalizers.contains databaseFinalizer then
    let rb := rebuildAggregatedConfigMap st cp database.nspace database.name
    let cleared := { database with finalizers := database.finalizers.filter (fun f => !(f == databaseFinalizer)) }
    match finalizerUpdateErr with
    | some e => { err := some e, state := rb.state, dbWrites := 1, cmWrites := rb.writes }
    | none => { err := none, state := putDatabase rb.state cleared, dbWrites := 1, cmWrites := rb.writes }
  else
    { err := none, state := st, dbWrites := 0, cmWrites := 0 }

/-- The phase the Reconcile function passes to updateStatus for a
non-deleting resource (after the finalizer has been ensured): Error when
URL resolution fails, Configuring when extension setup errors or reports
not-ready, Error when the ConfigMap reconcile fails, Ready otherwise. -/
def reconcilePhase (st : ClusterState) (w : DbWorld) (cp : WriteOracle) (database : Database) : String :=
  match getDatabaseURL st database with
  | .error _ => "Error"
  | .ok dbURL =>
      if database.spec.databaseType == "postgresql" || database.spec.databaseType == "" then
        let res := setupDatabaseExtensions st w database dbURL
        match res.err with
        | some _ => "Configuring"
        | none =>
            if !res.ready then "Configuring"
            else
              match (reconcileConfigMap st cp { database with status := res.status } dbURL).result with
              | .error _ => "Error"
              | .ok _ => "Ready"
      else
        match (reconcileConfigMap st cp database dbURL).result with
        | .error _ => "Error"
        | .ok _ => "Ready"

/-- Client Get of a Database by namespace and name (observation helper). -/
def findDatabase (st : ClusterState) (ns name : String) : Option Database :=
  st.databases.find? (fun d => d.nspace == ns && d.name == name)

/-- Number of "Ready"-typed conditions in a condition list. -/
def readyCount (conds : List Condition) : Nat :=
  (conds.filter (fun c => c.condType == "Ready")).length

/-- The status message used by the permission-fallback branch mentions the
word superuser. -/
theorem missingSuperuserMsg_mentions_superuser :
    containsSubstr (missingSuperuserMsg ("pg_stat_statements")) ("superuser") = true := by decide

/-- Reading back the key just set in an association list. -/
theorem getKey_setKey (m : List (String × String)) (k v : String) :
    getKey (setKey m k v) k = some v := by
  simp [getKey, setKey, List.find?_cons]

/-- A stored ConfigMap is found back under its own identity. -/
theorem findConfigMap_putConfigMap (st : ClusterState) (cm : ConfigMap) :
    findConfigMap (putConfigMap st cm) cm.nspace cm.name = some cm := by
  simp [findConfigMap, putConfigMap, List.find?_cons]

/-- A found ConfigMap carries the identity it was looked up under. -/
theorem findConfigMap_ids (st : ClusterState) (ns nm : String) (cm : ConfigMap)
    (h : findConfigMap st ns nm = some cm) : cm.nspace = ns ∧ cm.name = nm := by
  unfold findConfigMap at h
  have := List.find?_some h
  simp only [Bool.and_eq_true, beq_iff_eq] at this
  exact this

/-- A stored Database is found back under its own identity. -/
theorem findDatabase_putDatabase (st : ClusterState) (db : Database) :
    findDatabase (putDatabase st db) db.nspace db.name = some db := by
  simp [findDatabase, putDatabase, List.find?_cons]

/-- Filtering a string out of a list makes contains on it false. -/
theorem contains_filter_self (l : List String) (x : String) :
    (l.filter (fun f => !(f == x))).contains x = false := by
  induction l with
  | nil => rfl
  | cons a rest ih =>
      by_cases h : a = x
      · simp [List.filter_cons, h, ih]
      · have h' : (a == x) = false := by simp [h]
        simp only [List.filter_cons, h', Bool.not_false, if_true, List.contains_cons, ih,
          Bool.or_false]
        simpa using Ne.symm h

/-- The aggregation loop's body is the rendered included-entry list. -/
theorem aggBody_eq_renderEntries (st : ClusterState) (database : Database) (dbURL : String) :
    ∀ dbs : List Database,
      aggBody st database dbURL dbs = renderEntries (includedEntries st database dbURL dbs) := by
  intro dbs
  induction dbs with
  | nil => rfl
  | cons db rest ih =>
      unfold aggBody includedEntries
      unfold includedEntries at ih
      cases h : resolvedURLFor st database dbURL db with
      | error e => simp [h, ih]
      | ok url =>
          cases he : db.spec.enabled <;> simp [h, he, ih, renderEntries]

/-- The rebuild loop's body and count are the rendered excluded-entry list
and its length. -/
theorem rebuildBody_eq_renderEntries (st : ClusterState) (ex : String) :
    ∀ dbs : List Database,
      rebuildBody st ex dbs =
        (renderEntries (rebuildEntries st ex dbs), (rebuildEntries st ex dbs).length) := by
  intro dbs
  induction dbs with
  | nil => rfl
  | cons db rest ih =>
      unfold rebuildBody rebuildEntries
      unfold rebuildEntries at ih
      by_cases hx : db.name = ex
      · simp [List.filterMap_cons, hx, ih]
      · have hx' : (db.name == ex) = false := by simp [hx]
        simp only [hx', Bool.false_eq_true, if_false]
        cases h : getDatabaseURL st db with
        | error e => simp [List.filterMap_cons, hx, hx', h, ih]
        | ok url =>
            cases he : db.spec.enabled <;>
              simp [List.filterMap_cons, hx, hx', h, he, ih, renderEntries]

/-- Upserting a "Ready"-typed condition into a list holding at most one
such condition leaves exactly one, and find? returns the new condition. -/
theorem setReadyCondition_spec (c : Condition) (hc : c.condType = "Ready") :
    ∀ l : List Condition, readyCount l ≤ 1 →
      readyCount (setReadyCondition l c) = 1 ∧
      (setReadyCondition l c).find? (fun d => d.condType == "Ready") = some c := by
  intro l
  induction l with
  | nil =>
      intro _
      constructor
      · simp [setReadyCondition, readyCount, List.filter_cons, hc]
      · simp [setReadyCondition, List.find?_cons, hc]
  | cons x xs ih =>
      intro hle
      by_cases hx : x.condType = "Ready"
      · have hxb : (x.condType == "Ready") = true := by simp [hx]
        have hcb : (c.condType == "Ready") = true := by simp [hc]
        have hcount : readyCount xs = 0 := by
          unfold readyCount at hle ⊢
          simp only [List.filter_cons, hxb, if_true, List.length_cons] at hle
          omega
        constructor
        · unfold readyCount at hcount ⊢
          simp only [setReadyCondition, hxb, if_true, List.filter_cons, hcb, List.length_cons]
          omega
        · simp only [setReadyCondition, hxb, if_true, List.find?_cons, hcb]
      · have hx' : (x.condType == "Ready") = false := by simp [hx]
        have hle' : readyCount xs ≤ 1 := by
          unfold readyCount at hle ⊢
          simpa [List.filter_cons, hx'] using hle
        obtain ⟨ih1, ih2⟩ := ih hle'
        constructor
        · unfold readyCount at ih1 ⊢
          simp [setReadyCondition, hx', List.filter_cons, ih1]
        · simp [setReadyCondition, hx', List.find?_cons, ih2]

/-- Every statement the superuser helper executes is the CREATE statement
or one of the two GRANT statements for the user extracted from the
resource's literal spec.url. -/
theorem createExtensionAsSuperuser_executed (w : DbWorld) (su ext : String) (database : Database) :
    ∀ c ∈ (createExtensionAsSuperuser w su ext database).executed,
      c = ("CREATE EXTENSION IF NOT EXISTS ") ++ ext ∨
      c = ("GRANT pg_monitor TO ") ++ extractUsernameFromURL database.spec.url ∨
      c = ("GRANT EXECUTE ON FUNCTION pg_stat_statements_reset TO ") ++ extractUsernameFromURL database.spec.url := by
  intro c hcmem
  unfold createExtensionAsSuperuser at hcmem
  by_cases ho : w.openOk su
  · by_cases hp : w.pingOk su
    · simp only [ho, hp, Bool.not_true, Bool.false_eq_true, if_false] at hcmem
      cases hce : w.createExt su ext with
      | some e => rw [hce] at hcmem; simp at hcmem; simp [hcmem]
      | none =>
          rw [hce] at hcmem
          by_cases hu : (extractUsernameFromURL database.spec.url != "" &&
              extractUsernameFromURL database.spec.url != "postgres") = true
          · simp only [hu, if_true] at hcmem
            simp at hcmem
            rcases hcmem with h | h | h <;> simp [h]
          · simp only [eq_false_of_ne_true hu, Bool.false_eq_true, if_false] at hcmem
            simp at hcmem
            simp [hcmem]
    · simp [ho, hp] at hcmem
  · simp [ho] at hcmem

/-- When the user extracted from spec.url is empty or "postgres", the
superuser helper executes no GRANT: every statement is the CREATE one. -/
theorem createExtensionAsSuperuser_no_grant (w : DbWorld) (su ext : String) (database : Database)
    (hu : extractUsernameFromURL database.spec.url = "" ∨
          extractUsernameFromURL database.spec.url = "postgres") :
    ∀ c ∈ (createExtensionAsSuperuser w su ext database).executed,
      c = ("CREATE EXTENSION IF NOT EXISTS ") ++ ext := by
  intro c hcmem
  unfold createExtensionAsSuperuser at hcmem
  have hcond : (extractUsernameFromURL database.spec.url != "" &&
      extractUsernameFromURL database.spec.url != "postgres") = false := by
    rcases hu with h | h <;> simp [h]
  by_cases ho : w.openOk su
  · by_cases hp : w.pingOk su
    · simp only [ho, hp, Bool.not_true, Bool.false_eq_true, if_false] at hcmem
      cases hce : w.createExt su ext with
      | some e => rw [hce] at hcmem; simpa using hcmem
      | none =>
          rw [hce] at hcmem
          simp only [hcond, Bool.false_eq_true, if_false] at hcmem
          simpa using hcmem
    · simp [ho, hp] at hcmem
  · simp [ho] at hcmem

/-- Lifting a property of superuser-executed statements through the
installation loop: if it holds for every statement already accumulated and
for everything the superuser helper can execute, it holds for the trace in
either outcome of installMissing. -/
theorem installMissing_executed (st : ClusterState) (w : DbWorld) (database : Database) (dbURL : String)
    (P : String → Prop)
    (hsuper : ∀ su ext, ∀ c ∈ (createExtensionAsSuperuser w su ext database).executed, P c) :
    ∀ (missing : List String) (status : DatabaseStatus) (acc : List String),
      (∀ c ∈ acc, P c) →
      (∀ r, installMissing st w database dbURL status acc missing = .error r → ∀ c ∈ r.executed, P c) ∧
      (∀ status2 acc2, installMissing st w database dbURL status acc missing = .ok (status2, acc2) → ∀ c ∈ acc2, P c) := by
  intro missing
  induction missing with
  | nil =>
      intro status acc hacc
      constructor
      · intro r hr
        simp [installMissing] at hr
      · intro s2 a2 hr
        simp only [installMissing, Except.ok.injEq, Prod.mk.injEq] at hr
        obtain ⟨-, h2⟩ := hr
        subst h2
        exact hacc
  | cons ext rest ih =>
      intro status acc hacc
      unfold installMissing
      cases hce : w.createExt dbURL ext with
      | none => exact ih status acc hacc
      | some errMsg =>
          by_cases hperm : (containsSubstr errMsg ("permission denied") ||
              containsSubstr errMsg ("must be superuser")) = true
          · simp only [hperm, if_true]
            cases hsu : getSuperuserURL st database with
            | error e =>
                constructor
                · intro r hr
                  simp only [Except.error.injEq] at hr
                  subst hr
                  exact hacc
                · intro s2 a2 hr
                  simp at hr
            | ok superuserURL =>
                by_cases hemp : (superuserURL == "") = true
                · simp only [hemp, if_true]
                  constructor
                  · intro r hr
                    simp only [Except.error.injEq] at hr
                    subst hr
                    exact hacc
                  · intro s2 a2 hr
                    simp at hr
                · simp only [eq_false_of_ne_true hemp, Bool.false_eq_true, if_false]
                  have hacc2 : ∀ c ∈ acc ++ (createExtensionAsSuperuser w superuserURL ext database).executed, P c := by
                    intro c hcm
                    rcases List.mem_append.mp hcm with h | h
                    · exact hacc c h
                    · exact hsuper superuserURL ext c h
                  by_cases hok : (createExtensionAsSuperuser w superuserURL ext database).ok = true
                  · simp only [hok, if_true]
                    exact ih status (acc ++ (createExtensionAsSuperuser w superuserURL ext database).executed) hacc2
                  · simp only [eq_false_of_ne_true hok, Bool.false_eq_true, if_false]
                    constructor
                    · intro r hr
                      simp only [Except.error.injEq] at hr
                      subst hr
                      exact hacc2
                    · intro s2 a2 hr
                      simp at hr
          · simp only [eq_false_of_ne_true hperm, Bool.false_eq_true, if_false]
            constructor
            · intro r hr
              simp only [Except.error.injEq] at hr
              subst hr
              exact hacc
            · intro s2 a2 hr
              simp at hr

/-- Lifting the same property to the full extension-setup trace. -/
theorem setupDatabaseExtensions_executed (st : ClusterState) (w : DbWorld) (database : Database) (dbURL : String)
    (P : String → Prop)
    (hsuper : ∀ su ext, ∀ c ∈ (createExtensionAsSuperuser w su ext database).executed, P c) :
    ∀ c ∈ (setupDatabaseExtensions st w database dbURL).executed, P c := by
  intro c hcmem
  unfold setupDatabaseExtensions at hcmem
  dsimp only [] at hcmem
  split at hcmem
  · simp at hcmem
  · split at hcmem
    · simp at hcmem
    · split at hcmem
      · simp at hcmem
      · split at hcmem
        · simp at hcmem
        · split at hcmem
          next x r heq =>
            exact (installMissing_executed st w database dbURL P hsuper _ _ _
              (by intro y hy; simp at hy)).1 r heq c hcmem
          next x status3 acc heq =>
            split at hcmem <;>
              exact (installMissing_executed st w database dbURL P hsuper _ _ _
                (by intro y hy; simp at hy)).2 status3 acc heq c hcmem

/-- A blank status record for example resources. -/
def emptyStatus : DatabaseStatus :=
  { phase := "", message := "", configMapRef := "", connectionStatus := "",
    extensionsReady := false, requiredExtensions := [], installedExtensions := [],
    lastError := "", conditions := [] }

/-- A spec with a literal URL and no secret references. -/
def plainSpec (n u : String) (en : Bool) : DatabaseSpec :=
  { name := n, url := u, urlFromSecret := none, superuserURL := "",
    superuserURLFromSecret := none, databaseType := "postgresql", enabled := en }

/-- A write oracle that accepts every write. -/
def acceptWrites : WriteOracle := { createErr := none, updateErr := none }

/-- Variant of the put/find round trip with the identity given
propositionally. -/
theorem findConfigMap_putConfigMap_of (st : ClusterState) (cm : ConfigMap) (ns nm : String)
    (h1 : cm.nspace = ns) (h2 : cm.name = nm) :
    findConfigMap (putConfigMap st cm) ns nm = some cm := by
  subst h1
  subst h2
  exact findConfigMap_putConfigMap st cm

/-- On an accepted write, the upsert succeeds and stores a ConfigMap under
the shared identity whose data and annotations are the freshly computed
body and the full-list count. -/
theorem reconcileConfigMap_stores (st : ClusterState) (cp : WriteOracle) (database : Database) (dbURL : String)
    (hc : cp.createErr = none) (hu : cp.updateErr = none) :
    (reconcileConfigMap st cp database dbURL).result = .ok configMapName ∧
    ∃ cm, findConfigMap (reconcileConfigMap st cp database dbURL).state database.nspace configMapName = some cm ∧
      cm.data = [("database.yml", ("databases:\n") ++ aggBody st database dbURL (namespaceDatabases st database.nspace))] ∧
      cm.annotations = [(countAnnotKey, toString (namespaceDatabases st database.nspace).length)] := by
  unfold reconcileConfigMap
  cases hf : findConfigMap st database.nspace configMapName with
  | none =>
      simp only [hf, hc]
      exact ⟨trivial, _, findConfigMap_putConfigMap_of st _ database.nspace configMapName rfl rfl, rfl, rfl⟩
  | some found =>
      obtain ⟨hns, hnm⟩ := findConfigMap_ids st _ _ _ hf
      simp only [hf, hu]
      exact ⟨trivial, _, findConfigMap_putConfigMap_of st _ database.nspace configMapName hns hnm, rfl, rfl⟩

/-- Fixture: a database resource with a literal URL in namespace ns. -/
def c1db : Database :=
  { name := "a", nspace := "ns", deletionTimestampSet := false,
    finalizers := [databaseFinalizer],
    spec := plainSpec ("prod") ("postgres://u:p@h/db") true, status := emptyStatus }

/-- Fixture: the shared ConfigMap already present in namespace ns. -/
def c1cm : ConfigMap :=
  { name := configMapName, nspace := "ns", labels := managedLabels,
    annotations := [(countAnnotKey, "1")],
    data := [("database.yml", "databases:\n")] }

/-- Fixture: cluster with the database and the existing artifact. -/
def c1st : ClusterState := { databases := [c1db], secrets := [], configMaps := [c1cm] }

/-- Fixture: the conflict error text of an optimistic-concurrency
rejection. -/
def conflictMsg : String :=
  "Operation cannot be fulfilled on configmaps: the object has been modified; please apply your changes to the latest version and try again"

/-- Fixture: a control plane rejecting the update with a conflict. -/
def c1oracle : WriteOracle := { createErr := none, updateErr := some conflictMsg }

/-- C1 counterexample: with the shared artifact present and the control
plane rejecting the update with a conflicting-version error,
reconcileConfigMap returns that error on the very first conflict after a
single write attempt, contradicting the claim that it re-reads, recomputes
and retries and never errors on the first conflict. -/
theorem C1_conflict_counterexample :
    (reconcileConfigMap c1st c1oracle c1db ("postgres://u:p@h/db")).result = .error conflictMsg ∧
    (reconcileConfigMap c1st c1oracle c1db ("postgres://u:p@h/db")).writes = 1 := by
  exact ⟨rfl, rfl⟩

/-- C1 (amended): on a conflicting-version rejection of the shared-artifact
update, reconcileConfigMap surfaces the rejection as its error immediately:
exactly one write attempt is made, nothing is re-read or retried, and the
cluster state is unchanged, so the first conflict already surfaces as an
aggregation error. -/
theorem C1_conflict_amended (st : ClusterState) (cp : WriteOracle) (database : Database) (dbURL e : String) (cm : ConfigMap)
    (hfound : findConfigMap st database.nspace configMapName = some cm)
    (herr : cp.updateErr = some e) :
    (reconcileConfigMap st cp database dbURL).result = .error e ∧
    (reconcileConfigMap st cp database dbURL).writes = 1 ∧
    (reconcileConfigMap st cp database dbURL).state = st := by
  unfold reconcileConfigMap
  simp [hfound, herr]

/-- C1 witness: the amended behaviour at the concrete conflict scenario. -/
theorem C1_conflict_witness :
    findConfigMap c1st c1db.nspace configMapName = some c1cm ∧
    c1oracle.updateErr = some conflictMsg ∧
    ((reconcileConfigMap c1st c1oracle c1db ("postgres://u:p@h/db")).result = .error conflictMsg ∧
     (reconcileConfigMap c1st c1oracle c1db ("postgres://u:p@h/db")).writes = 1 ∧
     (reconcileConfigMap c1st c1oracle c1db ("postgres://u:p@h/db")).state = c1st) :=
  ⟨rfl, rfl, C1_conflict_amended c1st c1oracle c1db ("postgres://u:p@h/db") conflictMsg c1cm rfl rfl⟩

/-- C8 counterexample: on the URL postgres://:pw@h, whose first `:` sits at
index 0 after the scheme, the code falls through to the `@` branch and
returns ":pw", while the claim's words (substring up to the first `:`)
give the empty string, so the claimed description of the extraction is
false at this input. -/
theorem C8_username_extraction_counterexample :
    extractUsernameFromURL ("postgres://:pw@h") = (":pw") ∧
    specExtractUsername ("postgres://:pw@h") = ("") ∧
    extractUsernameFromURL ("postgres://:pw@h") ≠ specExtractUsername ("postgres://:pw@h") :=
  ⟨by decide, by decide, by decide⟩

/-- C8 (amended): the extraction equals the claim's description amended so
that a `:` or `@` at index 0 is ignored (the substring branch applies only
when the delimiter has at least one character before it); and after a
successful superuser creation the two GRANT statements are issued exactly
when the extracted user is neither empty nor literally postgres, to that
extracted user. -/
theorem C8_username_extraction_amended :
    (∀ dbURL, extractUsernameFromURL dbURL = amendedExtractUsername dbURL) ∧
    (∀ (w : DbWorld) (su ext : String) (database : Database),
      w.openOk su = true → w.pingOk su = true → w.createExt su ext = none →
      ((extractUsernameFromURL database.spec.url = "" ∨
          extractUsernameFromURL database.spec.url = "postgres") →
        (createExtensionAsSuperuser w su ext database).executed =
          [("CREATE EXTENSION IF NOT EXISTS ") ++ ext]) ∧
      (¬(extractUsernameFromURL database.spec.url = "" ∨
          extractUsernameFromURL database.spec.url = "postgres") →
        (createExtensionAsSuperuser w su ext database).executed =
          [("CREATE EXTENSION IF NOT EXISTS ") ++ ext,
           ("GRANT pg_monitor TO ") ++ extractUsernameFromURL database.spec.url,
           ("GRANT EXECUTE ON FUNCTION pg_stat_statements_reset TO ") ++ extractUsernameFromURL database.spec.url])) := by
  constructor
  · intro u
    unfold extractUsernameFromURL amendedExtractUsername goIndexOf
    cases h : (!strHasPref u ("postgres://") && !strHasPref u ("postgresql://"))
    · simp only [h, Bool.false_eq_true, if_false]
      cases h2 : ((trimPref (trimPref u ("postgres://")) ("postgresql://")).toList.findIdx? (fun x => x == ':')) with
      | none =>
          simp only [h2]
          cases h3 : ((trimPref (trimPref u ("postgres://")) ("postgresql://")).toList.findIdx? (fun x => x == '@')) with
          | none => simp
          | some j => simp [gt_iff_lt, Int.natCast_pos]
      | some idx =>
          simp only [h2]
          cases h3 : ((trimPref (trimPref u ("postgres://")) ("postgresql://")).toList.findIdx? (fun x => x == '@')) with
          | none => simp [gt_iff_lt, Int.natCast_pos]
          | some j => simp [gt_iff_lt, Int.natCast_pos]
    · simp [h]
  · intro w su ext database ho hp hce
    constructor
    · intro hu
      have hcond : (extractUsernameFromURL database.spec.url != "" &&
          extractUsernameFromURL database.spec.url != "postgres") = false := by
        rcases hu with h | h <;> simp [h]
      unfold createExtensionAsSuperuser
      simp [ho, hp, hce, hcond]
    · intro hu
      push_neg at hu
      obtain ⟨h1, h2⟩ := hu
      have hcond : (extractUsernameFromURL database.spec.url != "" &&
          extractUsernameFromURL database.spec.url != "postgres") = true := by
        simp [h1, h2]
      unfold createExtensionAsSuperuser
      simp [ho, hp, hce, hcond]

/-- Fixture: a resource whose literal spec.url names the user `user`. -/
def c8db : Database :=
  { name := "a", nspace := "ns8", deletionTimestampSet := false,
    finalizers := [databaseFinalizer],
    spec := plainSpec ("prod") ("postgres://user:pw@h/db") true, status := emptyStatus }

/-- Fixture: a driver world where the superuser connection works and the
creation succeeds. -/
def c8world : DbWorld :=
  { openOk := fun _ => true, pingOk := fun _ => true,
    catalog := fun _ => some [], createExt := fun _ _ => none,
    catalogAfter := fun _ => some requiredExtensions }

/-- C8 witness: the amended extraction equality at a concrete URL, and the
grant statements issued for the concrete extracted user. -/
theorem C8_username_extraction_witness :
    extractUsernameFromURL ("postgres://host:5432/db") = amendedExtractUsername ("postgres://host:5432/db") ∧
    (¬(extractUsernameFromURL c8db.spec.url = "" ∨ extractUsernameFromURL c8db.spec.url = "postgres")) ∧
    (createExtensionAsSuperuser c8world ("postgres://postgres:pw@h/db") ("pg_stat_statements") c8db).executed =
      [("CREATE EXTENSION IF NOT EXISTS ") ++ ("pg_stat_statements"),
       ("GRANT pg_monitor TO ") ++ extractUsernameFromURL c8db.spec.url,
       ("GRANT EXECUTE ON FUNCTION pg_stat_statements_reset TO ") ++ extractUsernameFromURL c8db.spec.url] :=
  ⟨C8_username_extraction_amended.1 ("postgres://host:5432/db"), by decide,
   (C8_username_extraction_amended.2 c8world ("postgres://postgres:pw@h/db") ("pg_stat_statements") c8db rfl rfl rfl).2 (by decide)⟩

/-- C2: with the control plane accepting the write, the upsert succeeds and
the stored database.yml is exactly the rendering of the included entries:
a (name, url) pair is included iff some database of the namespace is
enabled and its URL resolves to that url (the current resource through the
caller-resolved URL, every other independently), keyed by the friendly
spec name; an unresolvable sibling is skipped without failing the
aggregate, and the current resource always resolves to the caller's URL. -/
theorem C2_upsert_entry_set (st : ClusterState) (cp : WriteOracle) (database : Database) (dbURL : String)
    (hc : cp.createErr = none) (hu : cp.updateErr = none) :
    (reconcileConfigMap st cp database dbURL).result = .ok configMapName ∧
    (∃ cm, findConfigMap (reconcileConfigMap st cp database dbURL).state database.nspace configMapName = some cm ∧
       getKey cm.data ("database.yml") =
         some (("databases:\n") ++ renderEntries (includedEntries st database dbURL (namespaceDatabases st database.nspace)))) ∧
    (∀ n u, (n, u) ∈ includedEntries st database dbURL (namespaceDatabases st database.nspace) ↔
       ∃ db ∈ namespaceDatabases st database.nspace,
         db.spec.enabled = true ∧ resolvedURLFor st database dbURL db = .ok u ∧ n = db.spec.name) ∧
    resolvedURLFor st database dbURL database = .ok dbURL := by
  obtain ⟨hres, cm, hfind, hdata, -⟩ := reconcileConfigMap_stores st cp database dbURL hc hu
  refine ⟨hres, ⟨cm, hfind, ?_⟩, ?_, ?_⟩
  · rw [hdata, aggBody_eq_renderEntries]
    simp [getKey]
  · intro n u
    unfold includedEntries
    rw [List.mem_filterMap]
    constructor
    · rintro ⟨db, hdb, hf⟩
      refine ⟨db, hdb, ?_⟩
      cases hr : resolvedURLFor st database dbURL db with
      | error e => rw [hr] at hf; simp at hf
      | ok url =>
          rw [hr] at hf
          cases he : db.spec.enabled with
          | false => simp [he] at hf
          | true =>
              simp only [he, if_true, Option.some.injEq, Prod.mk.injEq] at hf
              obtain ⟨h1, h2⟩ := hf
              subst h1
              subst h2
              exact ⟨rfl, rfl, rfl⟩
    · rintro ⟨db, hdb, he, hr, hn⟩
      exact ⟨db, hdb, by rw [hr]; simp [he, hn]⟩
  · unfold resolvedURLFor
    simp

/-- Fixture: an enabled resource with a literal URL in namespace ns2. -/
def c2dbA : Database :=
  { name := "a", nspace := "ns2", deletionTimestampSet := false,
    finalizers := [databaseFinalizer],
    spec := plainSpec ("prod") ("postgres://u:p@h/db") true, status := emptyStatus }

/-- Fixture: an enabled sibling whose URL comes from a missing secret, so
resolution fails and it is skipped. -/
def c2dbB : Database :=
  { name := "b", nspace := "ns2", deletionTimestampSet := false,
    finalizers := [databaseFinalizer],
    spec := { plainSpec ("stage") ("") true with
      urlFromSecret := some { name := "missing", key := "url", nspace := "" } },
    status := emptyStatus }

/-- Fixture: namespace ns2 cluster, no secrets, no artifact yet. -/
def c2st : ClusterState := { databases := [c2dbA, c2dbB], secrets := [], configMaps := [] }

/-- C2 witness: the entry set at a concrete cluster where the sibling's
secret is missing — only the current resource's entry is included, under
the caller-resolved URL. -/
theorem C2_witness :
    acceptWrites.createErr = none ∧ acceptWrites.updateErr = none ∧
    includedEntries c2st c2dbA ("postgres://u:p@h/db") (namespaceDatabases c2st ("ns2")) =
      [("prod", "postgres://u:p@h/db")] ∧
    ((reconcileConfigMap c2st acceptWrites c2dbA ("postgres://u:p@h/db")).result = .ok configMapName ∧
     (∃ cm, findConfigMap (reconcileConfigMap c2st acceptWrites c2dbA ("postgres://u:p@h/db")).state c2dbA.nspace configMapName = some cm ∧
        getKey cm.data ("database.yml") =
          some (("databases:\n") ++ renderEntries (includedEntries c2st c2dbA ("postgres://u:p@h/db") (namespaceDatabases c2st c2dbA.nspace)))) ∧
     (∀ n u, (n, u) ∈ includedEntries c2st c2dbA ("postgres://u:p@h/db") (namespaceDatabases c2st c2dbA.nspace) ↔
        ∃ db ∈ namespaceDatabases c2st c2dbA.nspace,
          db.spec.enabled = true ∧ resolvedURLFor c2st c2dbA ("postgres://u:p@h/db") db = .ok u ∧ n = db.spec.name) ∧
     resolvedURLFor c2st c2dbA ("postgres://u:p@h/db") c2dbA = .ok ("postgres://u:p@h/db")) :=
  ⟨rfl, rfl, by decide,
   C2_upsert_entry_set c2st acceptWrites c2dbA ("postgres://u:p@h/db") rfl rfl⟩

/-- Fixture: an enabled resource in namespace ns3. -/
def c3dbA : Database :=
  { name := "a", nspace := "ns3", deletionTimestampSet := false,
    finalizers := [databaseFinalizer],
    spec := plainSpec ("prod") ("postgres://u:p@h/db") true, status := emptyStatus }

/-- Fixture: a disabled sibling in namespace ns3. -/
def c3dbB : Database :=
  { name := "b", nspace := "ns3", deletionTimestampSet := false,
    finalizers := [databaseFinalizer],
    spec := plainSpec ("stage") ("postgres://v:q@h/db2") false, status := emptyStatus }

/-- Fixture: namespace ns3 cluster without an artifact. -/
def c3st : ClusterState := { databases := [c3dbA, c3dbB], secrets := [], configMaps := [] }

/-- C3 counterexample: in a namespace with two resources of which one is
disabled, the upsert writes count annotation "2" — the total number of
resources — while only one entry is included in the payload, so the
annotation is not the decimal string of the included-entry count. -/
theorem C3_count_counterexample :
    ((findConfigMap (reconcileConfigMap c3st acceptWrites c3dbA ("postgres://u:p@h/db")).state ("ns3") configMapName).bind
        (fun cm => getKey cm.annotations countAnnotKey)) = some ("2") ∧
    (includedEntries c3st c3dbA ("postgres://u:p@h/db") (namespaceDatabases c3st ("ns3"))).length = 1 ∧
    ((findConfigMap (reconcileConfigMap c3st acceptWrites c3dbA ("postgres://u:p@h/db")).state ("ns3") configMapName).bind
        (fun cm => getKey cm.annotations countAnnotKey)) ≠
      some (toString (includedEntries c3st c3dbA ("postgres://u:p@h/db") (namespaceDatabases c3st ("ns3"))).length) :=
  ⟨by decide, by decide, by decide⟩

/-- C3 (amended): when writes are accepted, the upsert's database-count
annotation equals the decimal string of the total number of Database
resources in the namespace (which can differ from the included-entry
count), while the rebuild's annotation equals the decimal string of the
included-entry count; only the rebuild behaves as the claim states. -/
theorem C3_count_amended (st : ClusterState) (cp : WriteOracle) (database : Database) (dbURL ns ex : String) (cm : ConfigMap)
    (hc : cp.createErr = none) (hu : cp.updateErr = none)
    (hcm : findConfigMap st ns configMapName = some cm) :
    (∃ cmU, findConfigMap (reconcileConfigMap st cp database dbURL).state database.nspace configMapName = some cmU ∧
       getKey cmU.annotations countAnnotKey = some (toString (namespaceDatabases st database.nspace).length)) ∧
    (∃ cmR, findConfigMap (rebuildAggregatedConfigMap st cp ns ex).state ns configMapName = some cmR ∧
       getKey cmR.annotations countAnnotKey = some (toString (rebuildEntries st ex (namespaceDatabases st ns)).length)) := by
  constructor
  · obtain ⟨-, cmU, hfind, -, hannots⟩ := reconcileConfigMap_stores st cp database dbURL hc hu
    refine ⟨cmU, hfind, ?_⟩
    rw [hannots]
    simp [getKey]
  · obtain ⟨hns, hnm⟩ := findConfigMap_ids st _ _ _ hcm
    unfold rebuildAggregatedConfigMap
    simp only [hcm, hu]
    rw [rebuildBody_eq_renderEntries]
    exact ⟨_, findConfigMap_putConfigMap_of st _ ns configMapName hns hnm,
      getKey_setKey _ countAnnotKey _⟩

/-- Fixture: the artifact present in namespace ns3 for the rebuild path. -/
def c3cm : ConfigMap :=
  { name := configMapName, nspace := "ns3", labels := managedLabels,
    annotations := [(countAnnotKey, "2")],
    data := [("database.yml", "databases:\n")] }

/-- Fixture: the ns3 cluster with the artifact present. -/
def c3st2 : ClusterState := { c3st with configMaps := [c3cm] }

/-- C3 witness: the amended counts at the concrete two-resource cluster. -/
theorem C3_count_witness :
    acceptWrites.createErr = none ∧ acceptWrites.updateErr = none ∧
    findConfigMap c3st2 ("ns3") configMapName = some c3cm ∧
    ((∃ cmU, findConfigMap (reconcileConfigMap c3st2 acceptWrites c3dbA ("postgres://u:p@h/db")).state c3dbA.nspace configMapName = some cmU ∧
        getKey cmU.annotations countAnnotKey = some (toString (namespaceDatabases c3st2 c3dbA.nspace).length)) ∧
     (∃ cmR, findConfigMap (rebuildAggregatedConfigMap c3st2 acceptWrites ("ns3") ("a")).state ("ns3") configMapName = some cmR ∧
        getKey cmR.annotations countAnnotKey = some (toString (rebuildEntries c3st2 ("a") (namespaceDatabases c3st2 ("ns3"))).length))) :=
  ⟨rfl, rfl, rfl,
   C3_count_amended c3st2 acceptWrites c3dbA ("postgres://u:p@h/db") ("ns3") ("a") c3cm rfl rfl rfl⟩

/-- Core of the permission fallback: with a reachable database, the
required extension missing, a permission-class creation error, and
superuser resolution either failing or yielding the empty string, setup
records the descriptive last-error, clears extensions-ready and returns
ready=false with no error. -/
theorem setup_permission_no_superuser (st : ClusterState) (w : DbWorld) (database : Database)
    (dbURL : String) (installed : List String) (errMsg e : String)
    (ho : w.openOk dbURL = true) (hp : w.pingOk dbURL = true)
    (hcat : w.catalog dbURL = some installed)
    (hmiss : installed.contains ("pg_stat_statements") = false)
    (hce : w.createExt dbURL ("pg_stat_statements") = some errMsg)
    (hperm : containsSubstr errMsg ("permission denied") = true ∨
             containsSubstr errMsg ("must be superuser") = true)
    (hsu : getSuperuserURL st database = .error e ∨ getSuperuserURL st database = .ok "") :
    (setupDatabaseExtensions st w database dbURL).ready = false ∧
    (setupDatabaseExtensions st w database dbURL).err = none ∧
    (setupDatabaseExtensions st w database dbURL).status.extensionsReady = false ∧
    (setupDatabaseExtensions st w database dbURL).status.lastError = missingSuperuserMsg ("pg_stat_statements") := by
  have hpermb : (containsSubstr errMsg ("permission denied") ||
      containsSubstr errMsg ("must be superuser")) = true := by
    rcases hperm with h | h <;> simp [h]
  unfold setupDatabaseExtensions
  simp only [ho, hp, Bool.not_true, Bool.false_eq_true, if_false, hcat]
  have hnotmem : ("pg_stat_statements") ∉ installed := by simpa using hmiss
  have hfilter : requiredExtensions.filter (fun req => !(installed.contains req)) =
      [("pg_stat_statements")] := by
    simp [requiredExtensions, hnotmem]
  rw [hfilter]
  simp only [List.isEmpty_cons, Bool.false_eq_true, if_false]
  unfold installMissing
  rw [hce]
  simp only [hpermb, if_true]
  rcases hsu with h | h <;> rw [h] <;> simp

/-- C4: for a postgresql (or default-typed) resource whose direct extension
creation fails with a permission-class error while no superuser credentials
are configured, setup records a last-error mentioning superuser privileges,
sets extensions-ready false and returns ready=false with nil error, and the
reconcile sets phase Configuring, not Error. -/
theorem C4_missing_superuser_configuring (st : ClusterState) (w : DbWorld) (cp : WriteOracle)
    (database : Database) (dbURL : String) (installed : List String) (errMsg : String)
    (htype : database.spec.databaseType = "postgresql" ∨ database.spec.databaseType = "")
    (hurl : getDatabaseURL st database = .ok dbURL)
    (ho : w.openOk dbURL = true) (hp : w.pingOk dbURL = true)
    (hcat : w.catalog dbURL = some installed)
    (hmiss : installed.contains ("pg_stat_statements") = false)
    (hce : w.createExt dbURL ("pg_stat_statements") = some errMsg)
    (hperm : containsSubstr errMsg ("permission denied") = true ∨
             containsSubstr errMsg ("must be superuser") = true)
    (hnosec : database.spec.superuserURLFromSecret = none)
    (hnosu : database.spec.superuserURL = "") :
    (setupDatabaseExtensions st w database dbURL).ready = false ∧
    (setupDatabaseExtensions st w database dbURL).err = none ∧
    (setupDatabaseExtensions st w database dbURL).status.extensionsReady = false ∧
    containsSubstr (setupDatabaseExtensions st w database dbURL).status.lastError ("superuser") = true ∧
    reconcilePhase st w cp database = "Configuring" := by
  have hsu : getSuperuserURL st database = .ok "" := by
    unfold getSuperuserURL
    rw [hnosec]
    simp [hnosu]
  obtain ⟨h1, h2, h3, h4⟩ := setup_permission_no_superuser st w database dbURL installed errMsg ""
    ho hp hcat hmiss hce hperm (Or.inr hsu)
  have htypeb : (database.spec.databaseType == "postgresql" ||
      database.spec.databaseType == "") = true := by
    rcases htype with h | h <;> simp [h]
  refine ⟨h1, h2, h3, ?_, ?_⟩
  · rw [h4]
    exact missingSuperuserMsg_mentions_superuser
  · unfold reconcilePhase
    rw [hurl]
    simp only [htypeb, if_true]
    rw [h2]
    simp only [h1, Bool.not_false, if_true]

/-- C10: during the permission fallback, an error resolving the superuser
credentials (missing secret or missing key included) is treated exactly
like no credentials configured: ready=false with nil error, descriptive
last-error, extensions-ready false, and phase Configuring — never Error. -/
theorem C10_superuser_resolution_error_configuring (st : ClusterState) (w : DbWorld) (cp : WriteOracle)
    (database : Database) (dbURL : String) (installed : List String) (errMsg e : String)
    (htype : database.spec.databaseType = "postgresql" ∨ database.spec.databaseType = "")
    (hurl : getDatabaseURL st database = .ok dbURL)
    (ho : w.openOk dbURL = true) (hp : w.pingOk dbURL = true)
    (hcat : w.catalog dbURL = some installed)
    (hmiss : installed.contains ("pg_stat_statements") = false)
    (hce : w.createExt dbURL ("pg_stat_statements") = some errMsg)
    (hperm : containsSubstr errMsg ("permission denied") = true ∨
             containsSubstr errMsg ("must be superuser") = true)
    (hsuerr : getSuperuserURL st database = .error e) :
    (setupDatabaseExtensions st w database dbURL).ready = false ∧
    (setupDatabaseExtensions st w database dbURL).err = none ∧
    (setupDatabaseExtensions st w database dbURL).status.extensionsReady = false ∧
    (setupDatabaseExtensions st w database dbURL).status.lastError = missingSuperuserMsg ("pg_stat_statements") ∧
    reconcilePhase st w cp database = "Configuring" ∧
    reconcilePhase st w cp database ≠ "Error" := by
  obtain ⟨h1, h2, h3, h4⟩ := setup_permission_no_superuser st w database dbURL installed errMsg e
    ho hp hcat hmiss hce hperm (Or.inl hsuerr)
  have htypeb : (database.spec.databaseType == "postgresql" ||
      database.spec.databaseType == "") = true := by
    rcases htype with h | h <;> simp [h]
  have hphase : reconcilePhase st w cp database = "Configuring" := by
    unfold reconcilePhase
    rw [hurl]
    simp only [htypeb, if_true]
    rw [h2]
    simp only [h1, Bool.not_false, if_true]
  refine ⟨h1, h2, h3, h4, hphase, ?_⟩
  rw [hphase]
  decide

/-- Fixture: a postgresql resource with a literal URL and no superuser
credentials, in namespace ns4. -/
def c4db : Database :=
  { name := "a", nspace := "ns4", deletionTimestampSet := false,
    finalizers := [databaseFinalizer],
    spec := plainSpec ("prod") ("postgres://u:p@h/db") true, status := emptyStatus }

/-- Fixture: the driver's permission-denied error text. -/
def permText : String := "pq: permission denied to create extension"

/-- Fixture: a world where the database is reachable, the required
extension is missing and direct creation is rejected for permissions. -/
def c4world : DbWorld :=
  { openOk := fun _ => true, pingOk := fun _ => true,
    catalog := fun _ => some ["plpgsql"],
    createExt := fun _ _ => some permText,
    catalogAfter := fun _ => some ["plpgsql"] }

/-- Fixture: the ns4 cluster. -/
def c4st : ClusterState := { databases := [c4db], secrets := [], configMaps := [] }

/-- C4 witness: the permission-denied scenario without superuser
credentials at concrete inputs. -/
theorem C4_missing_superuser_witness :
    getDatabaseURL c4st c4db = .ok ("postgres://u:p@h/db") ∧
    c4world.createExt ("postgres://u:p@h/db") ("pg_stat_statements") = some permText ∧
    containsSubstr permText ("permission denied") = true ∧
    c4db.spec.superuserURL = "" ∧ c4db.spec.superuserURLFromSecret = none ∧
    ((setupDatabaseExtensions c4st c4world c4db ("postgres://u:p@h/db")).ready = false ∧
     (setupDatabaseExtensions c4st c4world c4db ("postgres://u:p@h/db")).err = none ∧
     (setupDatabaseExtensions c4st c4world c4db ("postgres://u:p@h/db")).status.extensionsReady = false ∧
     containsSubstr (setupDatabaseExtensions c4st c4world c4db ("postgres://u:p@h/db")).status.lastError ("superuser") = true ∧
     reconcilePhase c4st c4world acceptWrites c4db = "Configuring") :=
  ⟨rfl, rfl, by decide, rfl, rfl,
   C4_missing_superuser_configuring c4st c4world acceptWrites c4db ("postgres://u:p@h/db")
     (["plpgsql"]) permText (Or.inl rfl) rfl rfl rfl rfl (by decide) rfl (Or.inl (by decide)) rfl rfl⟩

/-- Fixture: a resource whose superuser URL comes from a secret that does
not exist, in namespace ns10. -/
def c10db : Database :=
  { name := "a", nspace := "ns10", deletionTimestampSet := false,
    finalizers := [databaseFinalizer],
    spec := { plainSpec ("prod") ("postgres://u:p@h/db") true with
      superuserURLFromSecret := some { name := "su-secret", key := "url", nspace := "" } },
    status := emptyStatus }

/-- Fixture: the ns10 cluster with no secrets, so superuser resolution
fails. -/
def c10st : ClusterState := { databases := [c10db], secrets := [], configMaps := [] }

/-- C10 witness: the broken superuser secret reference at concrete
inputs. -/
theorem C10_superuser_resolution_error_witness :
    getSuperuserURL c10st c10db = .error ("failed to get superuser secret ns10/su-secret") ∧
    getDatabaseURL c10st c10db = .ok ("postgres://u:p@h/db") ∧
    ((setupDatabaseExtensions c10st c4world c10db ("postgres://u:p@h/db")).ready = false ∧
     (setupDatabaseExtensions c10st c4world c10db ("postgres://u:p@h/db")).err = none ∧
     (setupDatabaseExtensions c10st c4world c10db ("postgres://u:p@h/db")).status.extensionsReady = false ∧
     (setupDatabaseExtensions c10st c4world c10db ("postgres://u:p@h/db")).status.lastError = missingSuperuserMsg ("pg_stat_statements") ∧
     reconcilePhase c10st c4world acceptWrites c10db = "Configuring" ∧
     reconcilePhase c10st c4world acceptWrites c10db ≠ "Error") :=
  ⟨rfl, rfl,
   C10_superuser_resolution_error_configuring c10st c4world acceptWrites c10db ("postgres://u:p@h/db")
     (["plpgsql"]) permText ("failed to get superuser secret ns10/su-secret")
     (Or.inl rfl) rfl rfl rfl rfl (by decide) rfl (Or.inl (by decide)) rfl⟩

/-- C5: deletion is idempotent and rebuild-failure tolerant: with the
finalizer present and the finalizer-persisting update accepted, no error is
returned and the resource stored back has the cleanup marker cleared, for
every write-oracle outcome of the rebuild (so a failing rebuild never
blocks deletion); with the finalizer absent, the deletion path performs no
writes, changes nothing and succeeds. -/
theorem C5_deletion_idempotent (st : ClusterState) (cp : WriteOracle) (ferr : Option String) (database : Database) :
    (database.finalizers.contains databaseFinalizer = true →
      (handleDeletion st cp none database).err = none ∧
      findDatabase (handleDeletion st cp none database).state database.nspace database.name =
        some { database with finalizers := database.finalizers.filter (fun f => !(f == databaseFinalizer)) } ∧
      (database.finalizers.filter (fun f => !(f == databaseFinalizer))).contains databaseFinalizer = false) ∧
    (database.finalizers.contains databaseFinalizer = false →
      handleDeletion st cp ferr database = { err := none, state := st, dbWrites := 0, cmWrites := 0 }) := by
  constructor
  · intro hfin
    unfold handleDeletion
    simp only [hfin, if_true]
    exact ⟨trivial, findDatabase_putDatabase _ _, contains_filter_self _ _⟩
  · intro hfin
    unfold handleDeletion
    rw [hfin]
    rfl

/-- Fixture: a resource carrying the finalizer in namespace ns5. -/
def c5db : Database :=
  { name := "a", nspace := "ns5", deletionTimestampSet := true,
    finalizers := [databaseFinalizer],
    spec := plainSpec ("prod") ("postgres://u:p@h/db") true, status := emptyStatus }

/-- Fixture: the shared artifact present in ns5, so the rebuild attempts a
write (which the conflicting oracle rejects). -/
def c5cm : ConfigMap :=
  { name := configMapName, nspace := "ns5", labels := managedLabels,
    annotations := [(countAnnotKey, "1")],
    data := [("database.yml", "databases:\n")] }

/-- Fixture: the ns5 cluster. -/
def c5st : ClusterState := { databases := [c5db], secrets := [], configMaps := [c5cm] }

/-- C5 witness: deletion with a failing rebuild still clears and persists
the marker at concrete inputs. -/
theorem C5_deletion_witness :
    c5db.finalizers.contains databaseFinalizer = true ∧
    c1oracle.updateErr = some conflictMsg ∧
    (rebuildAggregatedConfigMap c5st c1oracle c5db.nspace c5db.name).err = some conflictMsg ∧
    ((handleDeletion c5st c1oracle none c5db).err = none ∧
     findDatabase (handleDeletion c5st c1oracle none c5db).state c5db.nspace c5db.name =
       some { c5db with finalizers := c5db.finalizers.filter (fun f => !(f == databaseFinalizer)) } ∧
     (c5db.finalizers.filter (fun f => !(f == databaseFinalizer))).contains databaseFinalizer = false) :=
  ⟨by decide, rfl, by decide, (C5_deletion_idempotent c5st c1oracle none c5db).1 (by decide)⟩

/-- C6: when the shared artifact does not exist in a namespace, the rebuild
returns no error and performs no write, leaving the state unchanged; and a
deletion in that namespace still clears and persists the cleanup marker
without error and without any ConfigMap write. -/
theorem C6_rebuild_noop (st : ClusterState) (cp : WriteOracle) (ns ex : String)
    (habsent : findConfigMap st ns configMapName = none) :
    rebuildAggregatedConfigMap st cp ns ex = { err := none, state := st, writes := 0 } ∧
    (∀ database : Database, database.nspace = ns → database.name = ex →
      database.finalizers.contains databaseFinalizer = true →
      (handleDeletion st cp none database).err = none ∧
      (handleDeletion st cp none database).cmWrites = 0 ∧
      findDatabase (handleDeletion st cp none database).state ns ex =
        some { database with finalizers := database.finalizers.filter (fun f => !(f == databaseFinalizer)) }) := by
  have hrb : rebuildAggregatedConfigMap st cp ns ex = { err := none, state := st, writes := 0 } := by
    unfold rebuildAggregatedConfigMap
    rw [habsent]
  refine ⟨hrb, ?_⟩
  intro database hns hnm hfin
  subst hns
  subst hnm
  have hrb2 : rebuildAggregatedConfigMap st cp database.nspace database.name =
      { err := none, state := st, writes := 0 } := hrb
  unfold handleDeletion
  simp only [hfin, if_true]
  rw [hrb2]
  exact ⟨trivial, rfl, findDatabase_putDatabase _ _⟩

/-- Fixture: a finalized resource in namespace ns6 where no artifact
exists. -/
def c6db : Database :=
  { name := "a", nspace := "ns6", deletionTimestampSet := true,
    finalizers := [databaseFinalizer],
    spec := plainSpec ("prod") ("postgres://u:p@h/db") true, status := emptyStatus }

/-- Fixture: the ns6 cluster without any ConfigMap. -/
def c6st : ClusterState := { databases := [c6db], secrets := [], configMaps := [] }

/-- C6 witness: rebuild and deletion with the artifact absent at concrete
inputs. -/
theorem C6_rebuild_noop_witness :
    findConfigMap c6st ("ns6") configMapName = none ∧
    (rebuildAggregatedConfigMap c6st acceptWrites ("ns6") ("a") =
       { err := none, state := c6st, writes := 0 } ∧
     ((handleDeletion c6st acceptWrites none c6db).err = none ∧
      (handleDeletion c6st acceptWrites none c6db).cmWrites = 0 ∧
      findDatabase (handleDeletion c6st acceptWrites none c6db).state ("ns6") ("a") =
        some { c6db with finalizers := c6db.finalizers.filter (fun f => !(f == databaseFinalizer)) })) :=
  ⟨rfl,
   (C6_rebuild_noop c6st acceptWrites ("ns6") ("a") rfl).1,
   (C6_rebuild_noop c6st acceptWrites ("ns6") ("a") rfl).2 c6db rfl rfl (by decide)⟩

/-- C7: after updateStatus with any phase the Reconcile passes ("Ready",
"Configuring" or "Error"), on a resource carrying at most one
"Ready"-typed condition, the condition list carries exactly one such
condition — overwritten in place, never duplicated — whose reason is the
phase, whose message is the status message, and whose status is true
exactly when the phase is "Ready". -/
theorem C7_single_ready_condition (database : Database) (phase message ref : String) (extReady : Bool)
    (hphase : phase = "Ready" ∨ phase = "Configuring" ∨ phase = "Error")
    (hle : readyCount database.status.conditions ≤ 1) :
    readyCount (updateStatus database phase message ref extReady).status.conditions = 1 ∧
    (updateStatus database phase message ref extReady).status.conditions.find? (fun d => d.condType == "Ready") =
      some (Condition.mk ("Ready") (phase == "Ready") phase message) ∧
    (updateStatus database phase message ref extReady).status.phase = phase ∧
    (updateStatus database phase message ref extReady).status.message = message ∧
    (∀ (st : ClusterState) (w : DbWorld) (cp : WriteOracle) (db2 : Database),
      reconcilePhase st w cp db2 = "Ready" ∨ reconcilePhase st w cp db2 = "Configuring" ∨
      reconcilePhase st w cp db2 = "Error") := by
  have hstatus : (if phase == "Error" || phase == "Configuring" then false else true) =
      (phase == "Ready") := by
    rcases hphase with h | h | h <;> subst h <;> decide
  have hspec := setReadyCondition_spec (Condition.mk ("Ready") (phase == "Ready") phase message)
    rfl database.status.conditions hle
  refine ?_
  constructor
  · unfold updateStatus
    dsimp only []
    rw [hstatus]
    exact hspec.1
  refine ⟨?_, rfl, rfl, ?_⟩
  · unfold updateStatus
    dsimp only []
    rw [hstatus]
    exact hspec.2
  · intro st w cp db2
    unfold reconcilePhase
    cases getDatabaseURL st db2 with
    | error e => simp
    | ok dbURL =>
        dsimp only []
        split
        · split
          · simp
          · split
            · simp
            · split <;> simp
        · split <;> simp

/-- Fixture: a stale "Ready" condition. -/
def c7old : Condition := { condType := "Ready", status := true, reason := "Ready", message := "old" }

/-- Fixture: an unrelated condition type that must be preserved. -/
def c7other : Condition := { condType := "Synced", status := true, reason := "x", message := "y" }

/-- Fixture: a resource already carrying one stale Ready condition. -/
def c7db : Database :=
  { name := "a", nspace := "ns7", deletionTimestampSet := false,
    finalizers := [databaseFinalizer],
    spec := plainSpec ("prod") ("postgres://u:p@h/db") true,
    status := { emptyStatus with conditions := [c7other, c7old] } }

/-- C7 witness: overwriting the stale condition with a Configuring one at
concrete inputs. -/
theorem C7_single_ready_condition_witness :
    (("Configuring" : String) = "Ready" ∨ ("Configuring" : String) = "Configuring" ∨
      ("Configuring" : String) = "Error") ∧
    readyCount c7db.status.conditions ≤ 1 ∧
    (readyCount (updateStatus c7db ("Configuring") ("setting up extensions") ("") false).status.conditions = 1 ∧
     (updateStatus c7db ("Configuring") ("setting up extensions") ("") false).status.conditions.find? (fun d => d.condType == "Ready") =
       some (Condition.mk ("Ready") (("Configuring" : String) == "Ready") ("Configuring") ("setting up extensions")) ∧
     (updateStatus c7db ("Configuring") ("setting up extensions") ("") false).status.phase = "Configuring" ∧
     (updateStatus c7db ("Configuring") ("setting up extensions") ("") false).status.message = "setting up extensions" ∧
     (∀ (st : ClusterState) (w : DbWorld) (cp : WriteOracle) (db2 : Database),
       reconcilePhase st w cp db2 = "Ready" ∨ reconcilePhase st w cp db2 = "Configuring" ∨
       reconcilePhase st w cp db2 = "Error")) :=
  ⟨Or.inr (Or.inl rfl), by decide,
   C7_single_ready_condition c7db ("Configuring") ("setting up extensions") ("") false
     (Or.inr (Or.inl rfl)) (by decide)⟩

/-- C9: the user granted to is always derived from the literal spec.url:
every statement in the setup trace is a CREATE EXTENSION statement or one
of the two GRANTs for extractUsernameFromURL of spec.url; and when spec.url
carries no postgres scheme (for example when the connection URL is supplied
only through a secret reference), the extraction is empty and no GRANT is
executed at all, whatever resolved URL was passed into setup. -/
theorem C9_grants_from_spec_url (st : ClusterState) (w : DbWorld) (database : Database) (dbURL : String) :
    (∀ c ∈ (setupDatabaseExtensions st w database dbURL).executed,
        (∃ ext, c = ("CREATE EXTENSION IF NOT EXISTS ") ++ ext) ∨
        c = ("GRANT pg_monitor TO ") ++ extractUsernameFromURL database.spec.url ∨
        c = ("GRANT EXECUTE ON FUNCTION pg_stat_statements_reset TO ") ++ extractUsernameFromURL database.spec.url) ∧
    (strHasPref database.spec.url ("postgres://") = false →
      strHasPref database.spec.url ("postgresql://") = false →
      extractUsernameFromURL database.spec.url = "" ∧
      ∀ c ∈ (setupDatabaseExtensions st w database dbURL).executed,
        ∃ ext, c = ("CREATE EXTENSION IF NOT EXISTS ") ++ ext) := by
  constructor
  · refine setupDatabaseExtensions_executed st w database dbURL _ ?_
    intro su ext c hc
    rcases createExtensionAsSuperuser_executed w su ext database c hc with h | h | h
    · exact Or.inl ⟨ext, h⟩
    · exact Or.inr (Or.inl h)
    · exact Or.inr (Or.inr h)
  · intro h1 h2
    have hempty : extractUsernameFromURL database.spec.url = "" := by
      unfold extractUsernameFromURL
      simp [h1, h2]
    refine ⟨hempty, ?_⟩
    refine setupDatabaseExtensions_executed st w database dbURL _ ?_
    intro su ext c hc
    exact ⟨ext, createExtensionAsSuperuser_no_grant w su ext database (Or.inl hempty) c hc⟩

/-- Fixture: a resource whose connection URL comes only from a secret
(spec.url empty) but with a literal superuser URL, in namespace ns9. -/
def c9db : Database :=
  { name := "a", nspace := "ns9", deletionTimestampSet := false,
    finalizers := [databaseFinalizer],
    spec := { plainSpec ("prod") ("") true with
      urlFromSecret := some { name := "creds", key := "url", nspace := "" },
      superuserURL := "postgres://postgres:pw@h/db" },
    status := emptyStatus }

/-- Fixture: the secret holding the real connection URL, which names the
user admin. -/
def c9secret : Secret :=
  { name := "creds", nspace := "ns9", data := [("url", "postgres://admin:pw@h/db")] }

/-- Fixture: the ns9 cluster. -/
def c9st : ClusterState := { databases := [c9db], secrets := [c9secret], configMaps := [] }

/-- Fixture: a world where direct creation on the resolved URL hits a
permission error but the superuser connection succeeds. -/
def c9world : DbWorld :=
  { openOk := fun _ => true, pingOk := fun _ => true,
    catalog := fun _ => some [],
    createExt := fun u _ => if u == "postgres://admin:pw@h/db" then some permText else none,
    catalogAfter := fun _ => some requiredExtensions }

/-- C9 witness: the resolved URL names the user admin, yet the grant step
is skipped because the literal spec.url is empty. -/
theorem C9_grants_from_spec_url_witness :
    strHasPref c9db.spec.url ("postgres://") = false ∧
    strHasPref c9db.spec.url ("postgresql://") = false ∧
    getDatabaseURL c9st c9db = .ok ("postgres://admin:pw@h/db") ∧
    extractUsernameFromURL ("postgres://admin:pw@h/db") = ("admin") ∧
    (setupDatabaseExtensions c9st c9world c9db ("postgres://admin:pw@h/db")).executed =
      [("CREATE EXTENSION IF NOT EXISTS pg_stat_statements")] ∧
    (extractUsernameFromURL c9db.spec.url = "" ∧
     ∀ c ∈ (setupDatabaseExtensions c9st c9world c9db ("postgres://admin:pw@h/db")).executed,
       ∃ ext, c = ("CREATE EXTENSION IF NOT EXISTS ") ++ ext) :=
  ⟨rfl, rfl, rfl, by decide, by decide,
   (C9_grants_from_spec_url c9st c9world c9db ("postgres://admin:pw@h/db")).2 rfl rfl⟩

end PgHero
